import Mathlib

/-!
Verification development for the `basicshapes` repository: a voxelization
pipeline that rasterizes parametric 3D primitives (sphere, cylinder, cuboid)
into dense volume grids, composites them under a policy (Overwrite, Max, Add),
and serializes the composite volume with its metadata.

The repository ships only its packaging manifest (`setup.py`); the shape
generation script itself is not in the source tree.  The rasterizer, assembler
and serializer below are therefore modelled from the specification document.
Real-valued geometric parameters (the spec's floats) are embedded as rationals.
-/

set_option maxRecDepth 100000

namespace BasicShapes

/-- A point or vector in 3D space, components as rationals. -/
structure Vec3 where
  x : ℚ
  y : ℚ
  z : ℚ
deriving DecidableEq

/-- Componentwise difference of two vectors. -/
def Vec3.sub (a b : Vec3) : Vec3 :=
  ⟨a.x - b.x, a.y - b.y, a.z - b.z⟩

/-- A 3x3 orientation matrix, row by row. -/
structure Rot3 where
  r00 : ℚ
  r01 : ℚ
  r02 : ℚ
  r10 : ℚ
  r11 : ℚ
  r12 : ℚ
  r20 : ℚ
  r21 : ℚ
  r22 : ℚ
deriving DecidableEq

/-- Apply an orientation matrix to a vector. -/
def Rot3.apply (R : Rot3) (v : Vec3) : Vec3 :=
  ⟨R.r00 * v.x + R.r01 * v.y + R.r02 * v.z,
   R.r10 * v.x + R.r11 * v.y + R.r12 * v.z,
   R.r20 * v.x + R.r21 * v.y + R.r22 * v.z⟩

/-- Modelled from the spec: the geometric parameters of each supported
primitive kind (the extents field of a ShapeDescriptor).  Sphere carries a
radius; cylinder a radius and an axial half-length; cuboid three
half-extents. -/
inductive ShapeGeom where
  | sphere (radius : ℚ)
  | cylinder (radius : ℚ) (halfLength : ℚ)
  | cuboid (hx : ℚ) (hy : ℚ) (hz : ℚ)
deriving DecidableEq

/-- Modelled from the spec: a ShapeDescriptor — kind plus extents, a center,
an optional orientation, and a label/intensity value. -/
structure ShapeDescriptor where
  geom : ShapeGeom
  center : Vec3
  rot : Option Rot3
  label : ℚ
deriving DecidableEq

/-- Validity of the extents: all strictly positive (the spec's ShapeDescriptor
invariant; its violation is the `InvalidShapeError` condition). -/
def ShapeGeom.valid : ShapeGeom → Bool
  | .sphere r => decide (0 < r)
  | .cylinder r h => decide (0 < r) && decide (0 < h)
  | .cuboid a b c => decide (0 < a) && decide (0 < b) && decide (0 < c)

/-- Degeneracy as the spec words it: a zero or negative extent. -/
def ShapeGeom.degenerate : ShapeGeom → Prop
  | .sphere r => r ≤ 0
  | .cylinder r h => r ≤ 0 ∨ h ≤ 0
  | .cuboid a b c => a ≤ 0 ∨ b ≤ 0 ∨ c ≤ 0

/-- Modelled from the spec: the kind-specific inclusion test in the shape's
local frame.  Sphere: squared distance at most radius squared.  Cylinder:
squared radial distance at most radius squared and axial (z) coordinate within
the half-length.  Cuboid: each coordinate within its half-extent. -/
def ShapeGeom.localTest : ShapeGeom → Vec3 → Bool
  | .sphere r, q => decide (q.x ^ 2 + q.y ^ 2 + q.z ^ 2 ≤ r ^ 2)
  | .cylinder r h, q => decide (q.x ^ 2 + q.y ^ 2 ≤ r ^ 2) && decide (|q.z| ≤ h)
  | .cuboid a b c, q => decide (|q.x| ≤ a) && decide (|q.y| ≤ b) && decide (|q.z| ≤ c)

/-- Transform a world coordinate into the shape's local frame: translate by
the center, then apply the orientation when the shape has one. -/
def ShapeDescriptor.toLocal (s : ShapeDescriptor) (p : Vec3) : Vec3 :=
  match s.rot with
  | none => p.sub s.center
  | some R => R.apply (p.sub s.center)

/-- Modelled from the spec: the inclusion predicate of a shape at a world
coordinate — transform into the local frame, then run the kind-specific
test. -/
def ShapeDescriptor.includes (s : ShapeDescriptor) (p : Vec3) : Bool :=
  s.geom.localTest (s.toLocal p)

/-- Grid dimensions and voxel spacing of the target volume. -/
structure GridSpec where
  nx : ℕ
  ny : ℕ
  nz : ℕ
  sx : ℚ
  sy : ℚ
  sz : ℚ
deriving DecidableEq

/-- Total number of voxels. -/
def GridSpec.size (g : GridSpec) : ℕ := g.nx * g.ny * g.nz

/-- Voxel-center world coordinate of the voxel with integer coordinates
(x, y, z): the integer coordinates scaled by the voxel spacing. -/
def GridSpec.center (g : GridSpec) (x y z : ℕ) : Vec3 :=
  ⟨(x : ℚ) * g.sx, (y : ℚ) * g.sy, (z : ℚ) * g.sz⟩

/-- Decode a flat row-major index (x outermost, z innermost) into the
voxel-center coordinate. -/
def GridSpec.centerAt (g : GridSpec) (i : ℕ) : Vec3 :=
  g.center (i / (g.ny * g.nz)) ((i / g.nz) % g.ny) (i % g.nz)

/-- A dense volume: grid metadata plus the flat row-major data array. -/
structure VolumeGrid where
  dims : GridSpec
  data : List ℚ
deriving DecidableEq

/-- The error taxonomy of the pipeline (spec section 7). -/
inductive ShapeError where
  | invalidShape
  | emptyShapeList
deriving DecidableEq

/-- Value of voxel `i` in the rasterization of shape `s`: the label when the
inclusion predicate holds at the voxel center, the background 0 otherwise. -/
def voxelValue (s : ShapeDescriptor) (g : GridSpec) (i : ℕ) : ℚ :=
  if s.includes (g.centerAt i) then s.label else 0

/-- The dense data array produced by rasterizing one shape. -/
def rasterizeData (s : ShapeDescriptor) (g : GridSpec) : List ℚ :=
  (List.range g.size).map (voxelValue s g)

/-- Modelled from the spec: `rasterize` — validate the extents first (raising
`InvalidShapeError` before any rasterization work), then point-sample every
voxel center of the grid. -/
def rasterize (s : ShapeDescriptor) (g : GridSpec) : Except ShapeError VolumeGrid :=
  if s.geom.valid then Except.ok ⟨g, rasterizeData s g⟩
  else Except.error ShapeError.invalidShape

/-- The compositing policies of the Volume Assembler. -/
inductive Policy where
  | overwrite
  | max
  | add
deriving DecidableEq

/-- Merge one shape's contribution into the value already in the output
buffer at one voxel, according to the policy.  `inc` is the shape's inclusion
predicate at that voxel's center, so the shape's rasterized value there is
`if inc then s.label else 0`. -/
def mergeVoxel (p : Policy) (old : ℚ) (s : ShapeDescriptor) (inc : Bool) : ℚ :=
  match p with
  | .overwrite => if inc then s.label else old
  | .max => Max.max old (if inc then s.label else 0)
  | .add => old + (if inc then s.label else 0)

/-- Value of voxel `i` after merging all shapes in sequence order into a
buffer that starts at the background 0. -/
def assembleValue (p : Policy) (shapes : List ShapeDescriptor) (g : GridSpec) (i : ℕ) : ℚ :=
  shapes.foldl (fun acc s => mergeVoxel p acc s (s.includes (g.centerAt i))) 0

/-- The dense data array of the assembled composite volume. -/
def assembleData (p : Policy) (shapes : List ShapeDescriptor) (g : GridSpec) : List ℚ :=
  (List.range g.size).map (assembleValue p shapes g)

/-- Modelled from the spec: `assemble` — fail with `EmptyShapeListError` on an
empty sequence, rasterize each shape in order (so an invalid shape anywhere
fails with `InvalidShapeError`), and merge under the policy. -/
def assemble (shapes : List ShapeDescriptor) (g : GridSpec) (p : Policy) :
    Except ShapeError VolumeGrid :=
  if shapes.isEmpty then Except.error ShapeError.emptyShapeList
  else if shapes.all (fun s => s.geom.valid) then Except.ok ⟨g, assembleData p shapes g⟩
  else Except.error ShapeError.invalidShape

/-- Modelled from the spec: a CompositeVolume — the assembled VolumeGrid
together with the ordered list of ShapeDescriptors used to build it (kept for
reproducibility, and what the serializer persists as metadata). -/
structure CompositeVolume where
  grid : VolumeGrid
  shapes : List ShapeDescriptor
deriving DecidableEq

/-- The VolumeGrid invariant of the spec's data model: the dense array holds
exactly `nx * ny * nz` entries. -/
def CompositeVolume.wellFormed (v : CompositeVolume) : Prop :=
  v.grid.data.length = v.grid.dims.nx * v.grid.dims.ny * v.grid.dims.nz

/-- The on-disk container format.  The manifest pins h5py, so the
self-describing hierarchical binary container is HDF5. -/
inductive FileFormat where
  | hdf5
deriving DecidableEq

/-- Modelled from the spec: the serialized file — format tag, dimension and
spacing attributes, one record per shape, and the dense array payload. -/
structure StoredFile where
  format : FileFormat
  nx : ℕ
  ny : ℕ
  nz : ℕ
  sx : ℚ
  sy : ℚ
  sz : ℚ
  shapeRecords : List ShapeDescriptor
  payload : List ℚ
deriving DecidableEq

/-- Errors of the serializer's read path. -/
inductive SerError where
  | corruptFile
deriving DecidableEq

/-- Modelled from the spec: `write` — persist the volume's dense array plus
metadata (dimensions, voxel spacing, shape list) into the hierarchical binary
container. -/
def write (v : CompositeVolume) : StoredFile :=
  { format := FileFormat.hdf5
    nx := v.grid.dims.nx
    ny := v.grid.dims.ny
    nz := v.grid.dims.nz
    sx := v.grid.dims.sx
    sy := v.grid.dims.sy
    sz := v.grid.dims.sz
    shapeRecords := v.shapes
    payload := v.grid.data }

/-- Modelled from the spec: `read` — rebuild the CompositeVolume, failing with
`CorruptFileError` on a dimension mismatch between the declared shape and the
stored array length. -/
def read (f : StoredFile) : Except SerError CompositeVolume :=
  if f.payload.length = f.nx * f.ny * f.nz then
    Except.ok ⟨⟨⟨f.nx, f.ny, f.nz, f.sx, f.sy, f.sz⟩, f.payload⟩, f.shapeRecords⟩
  else Except.error SerError.corruptFile

/-- Modelled from the spec: the end-to-end pipeline — assemble the shapes,
then serialize the composite; any assembly error propagates and no file is
produced. -/
def runPipeline (shapes : List ShapeDescriptor) (g : GridSpec) (p : Policy) :
    Except ShapeError StoredFile :=
  (assemble shapes g p).map (fun v => write ⟨v, shapes⟩)

/-- The dependency list declared by `install_requires` in `setup.py`. -/
def setupInstallRequires : List String :=
  ["h5py>=2.7", "numpy>=1.13", "scipy>=0.19"]

/-- Sample shape used by concrete scenarios: a sphere of radius 2 centered at
(5, 5, 5) with label 1 and no rotation. -/
def demoSphere2 : ShapeDescriptor :=
  ⟨ShapeGeom.sphere 2, ⟨5, 5, 5⟩, none, 1⟩

/-- Sample grid used by concrete scenarios: 10 x 10 x 10 voxels with unit
spacing. -/
def demoGrid10 : GridSpec := ⟨10, 10, 10, 1, 1, 1⟩

/- Helper lemmas -/

/-- Reading position `i < n` of `(List.range n).map f` with a default gives
`f i`. -/
theorem getD_range_map {α : Type} (f : ℕ → α) (d : α) {n i : ℕ} (hi : i < n) :
    ((List.range n).map f).getD i d = f i := by
  have hlen : i < ((List.range n).map f).length := by simpa using hi
  rw [List.getD_eq_getElem?_getD, List.getElem?_eq_getElem hlen]
  simp

/-- Degenerate extents fail the validity check. -/
theorem valid_eq_false_of_degenerate (sg : ShapeGeom) (h : sg.degenerate) :
    sg.valid = false := by
  cases sg with
  | sphere r =>
    simp only [ShapeGeom.degenerate] at h
    simp [ShapeGeom.valid, not_lt.mpr h]
  | cylinder r hl =>
    simp only [ShapeGeom.degenerate] at h
    rcases h with h | h <;> simp [ShapeGeom.valid, not_lt.mpr h]
  | cuboid a b c =>
    simp only [ShapeGeom.degenerate] at h
    rcases h with h | h | h <;> simp [ShapeGeom.valid, not_lt.mpr h]

/-- Claim C1: for every valid shape and grid, rasterize succeeds with exactly
`nx * ny * nz` entries, each voxel holding the label exactly when the
inclusion predicate holds at its voxel-center coordinate and the background 0
otherwise. -/
theorem C1_rasterize_functional_spec (s : ShapeDescriptor) (g : GridSpec)
    (h : s.geom.valid = true) :
    ∃ v, rasterize s g = Except.ok v ∧
      v.data.length = g.nx * g.ny * g.nz ∧
      ∀ i, i < g.nx * g.ny * g.nz →
        v.data.getD i 0 = if s.includes (g.centerAt i) then s.label else 0 := by
  refine ⟨⟨g, rasterizeData s g⟩, by simp [rasterize, h],
    by simp [rasterizeData, GridSpec.size], ?_⟩
  intro i hi
  have hi' : i < g.size := hi
  show ((List.range g.size).map (voxelValue s g)).getD i 0 = _
  rw [getD_range_map _ _ hi']
  rfl

/-- Claim C1 witness: the concrete sphere scenario satisfies the hypotheses
and the conclusion of C1. -/
theorem C1_rasterize_functional_spec_witness :
    demoSphere2.geom.valid = true ∧
    (∃ v, rasterize demoSphere2 demoGrid10 = Except.ok v ∧
      v.data.length = demoGrid10.nx * demoGrid10.ny * demoGrid10.nz ∧
      ∀ i, i < demoGrid10.nx * demoGrid10.ny * demoGrid10.nz →
        v.data.getD i 0 =
          if demoSphere2.includes (demoGrid10.centerAt i) then demoSphere2.label else 0) :=
  ⟨by decide, C1_rasterize_functional_spec demoSphere2 demoGrid10 (by decide)⟩

/-- Two distinct values together occur at most `length` many times in a
list. -/
theorem count_add_count_le_length {α : Type} [DecidableEq α] (a b : α) (hab : a ≠ b)
    (l : List α) : l.count a + l.count b ≤ l.length := by
  induction l with
  | nil => simp
  | cons x xs ih =>
    simp only [List.count_cons, List.length_cons, beq_iff_eq]
    by_cases hxa : x = a <;> by_cases hxb : x = b
    · exact absurd (hxa.symm.trans hxb) hab
    · rw [if_pos hxa, if_neg hxb]; omega
    · rw [if_neg hxa, if_pos hxb]; omega
    · rw [if_neg hxa, if_neg hxb]; omega

/-- When the occurrences of two distinct values exhaust the length of a list,
every element is one of the two. -/
theorem all_eq_or_eq_of_counts {α : Type} [DecidableEq α] (a b : α) (hab : a ≠ b) :
    ∀ (l : List α), l.count a + l.count b = l.length → ∀ q ∈ l, q = a ∨ q = b := by
  intro l
  induction l with
  | nil => intro _ q hq; cases hq
  | cons x xs ih =>
    intro h q hq
    have hle := count_add_count_le_length a b hab xs
    simp only [List.count_cons, List.length_cons, beq_iff_eq] at h
    by_cases hxa : x = a <;> by_cases hxb : x = b
    · exact absurd (hxa.symm.trans hxb) hab
    · rw [if_pos hxa, if_neg hxb] at h
      rcases List.mem_cons.mp hq with rfl | hq2
      · exact Or.inl hxa
      · exact ih (by omega) q hq2
    · rw [if_neg hxa, if_pos hxb] at h
      rcases List.mem_cons.mp hq with rfl | hq2
      · exact Or.inr hxb
      · exact ih (by omega) q hq2
    · rw [if_neg hxa, if_neg hxb] at h
      omega

/-- Claim C2: rasterizing a sphere of radius 2 centered at (5,5,5) in a
10 x 10 x 10 grid with unit spacing and label 1 succeeds and produces exactly
33 voxels with value 1, all other voxels 0. -/
theorem C2_sphere_radius2_count33 :
    rasterize demoSphere2 demoGrid10 =
      Except.ok ⟨demoGrid10, rasterizeData demoSphere2 demoGrid10⟩ ∧
    (rasterizeData demoSphere2 demoGrid10).length = 1000 ∧
    (rasterizeData demoSphere2 demoGrid10).count 1 = 33 ∧
    ∀ q ∈ rasterizeData demoSphere2 demoGrid10, q = 1 ∨ q = 0 := by
  refine ⟨by with_unfolding_all rfl, by with_unfolding_all decide,
    by with_unfolding_all decide,
    all_eq_or_eq_of_counts 1 0 one_ne_zero _ (by with_unfolding_all decide)⟩

/-- Claim C5: the serializer round trip — reading back a written well-formed
CompositeVolume returns it unchanged, dense array and all metadata fields. -/
theorem C5_round_trip (v : CompositeVolume) (h : v.wellFormed) :
    read (write v) = Except.ok v := by
  obtain ⟨⟨⟨nx, ny, nz, sx, sy, sz⟩, data⟩, shapes⟩ := v
  simp only [CompositeVolume.wellFormed] at h
  simp [read, write, h]

/-- Sample composite volume for the round-trip witness. -/
def demoComposite : CompositeVolume :=
  ⟨⟨⟨1, 1, 1, 1, 1, 1⟩, [0]⟩, [demoSphere2]⟩

/-- Claim C5 witness: the round trip at a concrete composite volume. -/
theorem C5_round_trip_witness :
    demoComposite.wellFormed ∧ read (write demoComposite) = Except.ok demoComposite :=
  ⟨rfl, C5_round_trip demoComposite rfl⟩

/-- Claim C7: assemble fails with EmptyShapeListError exactly when the shape
sequence is empty; any non-empty sequence never produces that error. -/
theorem C7_empty_shape_list_iff (shapes : List ShapeDescriptor) (g : GridSpec) (p : Policy) :
    assemble shapes g p = Except.error ShapeError.emptyShapeList ↔ shapes = [] := by
  cases shapes with
  | nil => simp [assemble]
  | cons a l =>
    simp only [assemble, List.isEmpty_cons, Bool.false_eq_true, if_false]
    constructor
    · intro h
      split at h <;> simp_all
    · intro h
      exact absurd h (List.cons_ne_nil a l)

/-- A second sphere overlapping `demoSphere2`, with a different label. -/
def demoSphereB : ShapeDescriptor :=
  ⟨ShapeGeom.sphere 3, ⟨5, 5, 5⟩, none, 7⟩

/-- Claim C3: under the Overwrite policy the later shape wins at every voxel
both shapes include, so the result depends on sequence order: assembling
`[A, B]` yields the label of B in the overlap while `[B, A]` yields the label
of A (and each result is a deterministic function of the ordered input). -/
theorem C3_overwrite_order (A B : ShapeDescriptor) (g : GridSpec) (i : ℕ)
    (hA : A.geom.valid = true) (hB : B.geom.valid = true)
    (hi : i < g.nx * g.ny * g.nz)
    (hmA : A.includes (g.centerAt i) = true)
    (hmB : B.includes (g.centerAt i) = true) :
    ∃ vAB vBA,
      assemble [A, B] g Policy.overwrite = Except.ok vAB ∧
      assemble [B, A] g Policy.overwrite = Except.ok vBA ∧
      vAB.data.getD i 0 = B.label ∧ vBA.data.getD i 0 = A.label := by
  have hi' : i < g.size := hi
  refine ⟨⟨g, assembleData Policy.overwrite [A, B] g⟩,
    ⟨g, assembleData Policy.overwrite [B, A] g⟩, ?_, ?_, ?_, ?_⟩
  · simp [assemble, hA, hB]
  · simp [assemble, hA, hB]
  · show ((List.range g.size).map (assembleValue Policy.overwrite [A, B] g)).getD i 0 = _
    rw [getD_range_map _ _ hi']
    simp [assembleValue, mergeVoxel, hmA, hmB]
  · show ((List.range g.size).map (assembleValue Policy.overwrite [B, A] g)).getD i 0 = _
    rw [getD_range_map _ _ hi']
    simp [assembleValue, mergeVoxel, hmA, hmB]

/-- Claim C3 witness: two overlapping spheres, at the voxel with flat index
555 (the voxel at integer coordinates (5, 5, 5), where both spheres
include their center). -/
theorem C3_overwrite_order_witness :
    demoSphere2.geom.valid = true ∧ demoSphereB.geom.valid = true ∧
    555 < demoGrid10.nx * demoGrid10.ny * demoGrid10.nz ∧
    demoSphere2.includes (demoGrid10.centerAt 555) = true ∧
    demoSphereB.includes (demoGrid10.centerAt 555) = true ∧
    (∃ vAB vBA,
      assemble [demoSphere2, demoSphereB] demoGrid10 Policy.overwrite = Except.ok vAB ∧
      assemble [demoSphereB, demoSphere2] demoGrid10 Policy.overwrite = Except.ok vBA ∧
      vAB.data.getD 555 0 = demoSphereB.label ∧ vBA.data.getD 555 0 = demoSphere2.label) :=
  ⟨by decide, by decide, by decide,
   by with_unfolding_all decide, by with_unfolding_all decide,
   C3_overwrite_order demoSphere2 demoSphereB demoGrid10 555 (by decide) (by decide)
     (by decide) (by with_unfolding_all decide) (by with_unfolding_all decide)⟩

/-- Merging two values under Max from the background is order-insensitive. -/
theorem max_pair_comm (a b : ℚ) : Max.max (Max.max 0 a) b = Max.max (Max.max 0 b) a := by
  rw [max_assoc, max_assoc, max_comm a b]

/-- Merging two values under Add from the background is order-insensitive. -/
theorem add_pair_comm (a b : ℚ) : 0 + a + b = 0 + b + a := by ring

/-- Claim C4: under the Max and Add policies assembly of two shapes is
commutative — `assemble [A, B]` and `assemble [B, A]` agree voxel for
voxel (indeed as whole results). -/
theorem C4_max_add_commutative (A B : ShapeDescriptor) (g : GridSpec) :
    assemble [A, B] g Policy.max = assemble [B, A] g Policy.max ∧
    assemble [A, B] g Policy.add = assemble [B, A] g Policy.add := by
  have hall : (([A, B] : List ShapeDescriptor).all fun s => s.geom.valid)
      = (([B, A] : List ShapeDescriptor).all fun s => s.geom.valid) := by
    simp [Bool.and_comm]
  have hdmax : assembleData Policy.max [A, B] g = assembleData Policy.max [B, A] g := by
    unfold assembleData
    congr 1
    funext i
    simp only [assembleValue, List.foldl_cons, List.foldl_nil, mergeVoxel]
    exact max_pair_comm _ _
  have hdadd : assembleData Policy.add [A, B] g = assembleData Policy.add [B, A] g := by
    unfold assembleData
    congr 1
    funext i
    simp only [assembleValue, List.foldl_cons, List.foldl_nil, mergeVoxel]
    exact add_pair_comm _ _
  constructor
  · unfold assemble
    rw [hall, hdmax]
    simp
  · unfold assemble
    rw [hall, hdadd]
    simp

/-- A degenerate sphere: radius 0. -/
def degenerateSphere : ShapeDescriptor :=
  ⟨ShapeGeom.sphere 0, ⟨5, 5, 5⟩, none, 1⟩

/-- Claim C6: a shape with a zero or negative extent makes rasterization fail
with InvalidShapeError (the validity check runs before any voxel is
computed and the parameters are never coerced), and any pipeline run whose
shape list contains it produces no output file, only the error. -/
theorem C6_degenerate_fails (s : ShapeDescriptor) (g : GridSpec) (h : s.geom.degenerate) :
    rasterize s g = Except.error ShapeError.invalidShape ∧
    ∀ (shapes : List ShapeDescriptor) (p : Policy), s ∈ shapes →
      runPipeline shapes g p = Except.error ShapeError.invalidShape := by
  have hv : s.geom.valid = false := valid_eq_false_of_degenerate s.geom h
  constructor
  · simp [rasterize, hv]
  · intro shapes p hmem
    have hne : shapes.isEmpty = false := by
      cases shapes
      · cases hmem
      · rfl
    have hall : (shapes.all fun s => s.geom.valid) = false := by
      rw [← Bool.not_eq_true, List.all_eq_true]
      push_neg
      exact ⟨s, hmem, by simp [hv]⟩
    simp [runPipeline, assemble, hne, hall, Except.map]

/-- Claim C6 witness: the radius-0 sphere. -/
theorem C6_degenerate_fails_witness :
    degenerateSphere.geom.degenerate ∧
    (rasterize degenerateSphere demoGrid10 = Except.error ShapeError.invalidShape ∧
     ∀ (shapes : List ShapeDescriptor) (p : Policy), degenerateSphere ∈ shapes →
       runPipeline shapes demoGrid10 p = Except.error ShapeError.invalidShape) :=
  ⟨le_refl (0 : ℚ),
   C6_degenerate_fails degenerateSphere demoGrid10 (le_refl (0 : ℚ))⟩

/-- Claim C8: a valid shape is rasterized without error whatever its position
relative to the volume: the output has exactly `nx * ny * nz` voxels and
every flat index that is written decodes to in-range voxel coordinates, so
out-of-volume shape regions are clipped silently with no out-of-range
access. -/
theorem C8_clipping (s : ShapeDescriptor) (g : GridSpec) (h : s.geom.valid = true) :
    ∃ v, rasterize s g = Except.ok v ∧
      v.data.length = g.nx * g.ny * g.nz ∧
      ∀ i, i < g.nx * g.ny * g.nz →
        i / (g.ny * g.nz) < g.nx ∧ (i / g.nz) % g.ny < g.ny ∧ i % g.nz < g.nz := by
  refine ⟨⟨g, rasterizeData s g⟩, by simp [rasterize, h],
    by simp [rasterizeData, GridSpec.size], ?_⟩
  intro i hi
  have hpos : 0 < g.nx * g.ny * g.nz := Nat.lt_of_le_of_lt (Nat.zero_le i) hi
  have hnz : 0 < g.nz := by
    rcases Nat.eq_zero_or_pos g.nz with h0 | h1
    · rw [h0, Nat.mul_zero] at hpos
      exact absurd hpos (lt_irrefl 0)
    · exact h1
  have hny : 0 < g.ny := by
    rcases Nat.eq_zero_or_pos g.ny with h0 | h1
    · rw [h0, Nat.mul_zero, Nat.zero_mul] at hpos
      exact absurd hpos (lt_irrefl 0)
    · exact h1
  refine ⟨?_, Nat.mod_lt _ hny, Nat.mod_lt _ hnz⟩
  exact (Nat.div_lt_iff_lt_mul (Nat.mul_pos hny hnz)).mpr (by rw [← Nat.mul_assoc]; exact hi)

/-- A sphere of radius 5 centered at the corner of the volume: most of it
lies outside the grid. -/
def edgeSphere : ShapeDescriptor :=
  ⟨ShapeGeom.sphere 5, ⟨0, 0, 0⟩, none, 1⟩

/-- A small grid entirely covered by `edgeSphere`. -/
def smallGrid : GridSpec := ⟨4, 4, 4, 1, 1, 1⟩

/-- Claim C8 witness: the radius-5 corner sphere on the 4 x 4 x 4 grid. -/
theorem C8_clipping_witness :
    edgeSphere.geom.valid = true ∧
    (∃ v, rasterize edgeSphere smallGrid = Except.ok v ∧
      v.data.length = smallGrid.nx * smallGrid.ny * smallGrid.nz ∧
      ∀ i, i < smallGrid.nx * smallGrid.ny * smallGrid.nz →
        i / (smallGrid.ny * smallGrid.nz) < smallGrid.nx ∧
        (i / smallGrid.nz) % smallGrid.ny < smallGrid.ny ∧
        i % smallGrid.nz < smallGrid.nz) :=
  ⟨by decide, C8_clipping edgeSphere smallGrid (by decide)⟩

/-- Reference reading of the inclusion tests, written out directly from the
spec wording: squared distance from center at most radius squared for the
sphere; radial distance at most the radius and axial coordinate within the
half-length for the cylinder; each coordinate within its half-extent for the
cuboid; with the voxel coordinate transformed into the local frame first when
the shape has a rotation. -/
def specIncluded (s : ShapeDescriptor) (p : Vec3) : Prop :=
  let q : Vec3 :=
    match s.rot with
    | none => ⟨p.x - s.center.x, p.y - s.center.y, p.z - s.center.z⟩
    | some R =>
        ⟨R.r00 * (p.x - s.center.x) + R.r01 * (p.y - s.center.y) + R.r02 * (p.z - s.center.z),
         R.r10 * (p.x - s.center.x) + R.r11 * (p.y - s.center.y) + R.r12 * (p.z - s.center.z),
         R.r20 * (p.x - s.center.x) + R.r21 * (p.y - s.center.y) + R.r22 * (p.z - s.center.z)⟩
  match s.geom with
  | ShapeGeom.sphere r => q.x ^ 2 + q.y ^ 2 + q.z ^ 2 ≤ r ^ 2
  | ShapeGeom.cylinder r h => q.x ^ 2 + q.y ^ 2 ≤ r ^ 2 ∧ -h ≤ q.z ∧ q.z ≤ h
  | ShapeGeom.cuboid a b c =>
      (-a ≤ q.x ∧ q.x ≤ a) ∧ (-b ≤ q.y ∧ q.y ≤ b) ∧ (-c ≤ q.z ∧ q.z ≤ c)

/-- Claim C9: the inclusion predicate used by the rasterizer agrees with the
kind-specific reference definition for every shape and every point, rotation
included. -/
theorem C9_inclusion_reference (s : ShapeDescriptor) (p : Vec3) :
    s.includes p = true ↔ specIncluded s p := by
  obtain ⟨geom, center, rot, label⟩ := s
  cases rot <;> cases geom <;>
    simp [ShapeDescriptor.includes, ShapeDescriptor.toLocal, specIncluded,
      ShapeGeom.localTest, Vec3.sub, Rot3.apply, abs_le, and_assoc]

/-- Claim C10: the packaging manifest pins h5py (>= 2.7) as the hierarchical
binary file I/O dependency, and every file produced by the serializer is in
the HDF5 format. -/
theorem C10_hdf5_container :
    "h5py>=2.7" ∈ setupInstallRequires ∧
    ∀ v : CompositeVolume, (write v).format = FileFormat.hdf5 :=
  ⟨by simp [setupInstallRequires], fun _ => rfl⟩

end BasicShapes
